import Mathlib

/-
Verification development for the pet-health Arduino firmware.

The firmware (src/unnamed/part_000, console-logging variant; src/pet-health/pet-health.ino,
SD-backed variant) is a mode-driven polling loop: a three-valued mode variable, two button
handlers with a rising-edge check, a sleep-activity accumulator fed from an MPU-6050 sensor,
and a two-command serial protocol in sync mode.

The embedding below is a shallow one: each C function becomes a Lean function from the
explicit global state (and the externally read inputs of that iteration) to the new state
paired with the ordered list of observable effects (assignments to the mode/accumulator
globals, LED writes, serial lines, delays).  Machine integers are modelled as Int with
explicit two's-complement wraps where the machine width matters: the 16-bit sensor words
go through toInt16, the stores to the 16-bit AcCount and the 32-bit AcTotal go through
toInt16 / toInt32, and C's truncating division is Int.tdiv.
-/

namespace PetHealth

/-- Source constant MODE_NONE (idle). -/
def MODE_NONE : Int := 0

/-- Source constant MODE_SYNC. -/
def MODE_SYNC : Int := 1

/-- Source constant MODE_SLEEP. -/
def MODE_SLEEP : Int := 2

/-- Arduino LOW. -/
def LOW : Int := 0

/-- Arduino HIGH. -/
def HIGH : Int := 1

/-- Source constant REST: the 500 ms debounce / sample-throttle delay. -/
def REST : Int := 500

/-- One observable effect of a handler: an assignment to one of the global
accumulator/mode variables, a pin write, a serial line, or a blocking delay.
The order of events in a handler's list is the order of the statements in the source. -/
inductive Ev where
  | setMode (m : Int)
  | setAcStep (v : Int)
  | setAcCount (v : Int)
  | setAcTotal (v : Int)
  | ledSyncWrite (v : Int)
  | ledSleepWrite (v : Int)
  | ledActiveWrite (v : Int)
  | serialLine (s : String)
  | delayMs (n : Int)
deriving DecidableEq

/-- The global mutable state of src/unnamed/part_000: the mode variable, the two
stored button levels, the three accumulator globals, and the three LED outputs.
On the AVR target AcStep and AcCount are the 16-bit `int` globals and AcTotal the
32-bit `long` global; every store that could leave those ranges goes through the
explicit wraps toInt16 / toInt32 in processSleepData, so the fields always hold the
machine value. -/
structure State where
  mode : Int
  prevSyncState : Int
  prevSleepState : Int
  AcStep : Int
  AcCount : Int
  AcTotal : Int
  ledSync : Int
  ledSleep : Int
  ledActive : Int
deriving DecidableEq

/-- The external world as read during one loop iteration: the two digitalRead button
levels, the pending serial byte (none when Serial.available() == 0), and the seven
16-bit words delivered by the MPU-6050 (only acX and acY are used; the rest are
read to drain the transport and discarded). -/
structure Input where
  syncLevel : Int
  sleepLevel : Int
  serialByte : Option Int
  acX : Int
  acY : Int
  acZ : Int
  tmp : Int
  gyX : Int
  gyY : Int
  gyZ : Int
deriving DecidableEq

/-- State after setup(): mode = MODE_NONE, both stored button levels LOW, accumulator
globals at their zero initialisers, LEDs off (initializePins writes 0 to the active LED). -/
def initState : State :=
  { mode := MODE_NONE, prevSyncState := LOW, prevSleepState := LOW,
    AcStep := 0, AcCount := 0, AcTotal := 0,
    ledSync := LOW, ledSleep := LOW, ledActive := 0 }

/-- Convenience constructor for an Input whose unused sensor words are zero. -/
def mkInput (syncLevel sleepLevel : Int) (b : Option Int) (x y : Int) : Input :=
  { syncLevel := syncLevel, sleepLevel := sleepLevel, serialByte := b,
    acX := x, acY := y, acZ := 0, tmp := 0, gyX := 0, gyY := 0, gyZ := 0 }

/-- logData of src/unnamed/part_000 (USE_SD = false variant): wraps the message in a
self-closing log tag and prints it as one serial line. -/
def logData (msg : String) : Ev :=
  Ev.serialLine ("<log message=\x27" ++ msg ++ "\x27/>")

/-- processSyncButton of src/unnamed/part_000 (identically in pet-health.ino): guarded by
mode being MODE_NONE or MODE_SYNC, reads the sync button level, and on
prevSyncState == LOW && level == HIGH toggles between idle and sync mode.  Note that the
source never assigns prevSyncState after its initialiser; the embedding mirrors that. -/
def processSyncButton (s : State) (level : Int) : State × List Ev :=
  if s.mode = MODE_NONE ∨ s.mode = MODE_SYNC then
    let syncState := level
    if s.prevSyncState = LOW ∧ syncState = HIGH then
      if s.mode = MODE_NONE then
        ({ s with mode := MODE_SYNC, ledSync := HIGH },
          [Ev.setMode MODE_SYNC, Ev.ledSyncWrite HIGH,
           logData "LOG: Sync button was pressed, sync mode enabled", Ev.delayMs REST])
      else if s.mode = MODE_SYNC then
        ({ s with mode := MODE_NONE, ledSync := LOW },
          [Ev.setMode MODE_NONE, Ev.ledSyncWrite LOW,
           logData "LOG: Sync button was pressed, sync mode disabled", Ev.delayMs REST])
      else (s, [Ev.delayMs REST])
    else (s, [])
  else (s, [])

/-- summariseSleepData of src/unnamed/part_000: the fixed-format session summary built
from the AcCount and AcTotal globals. -/
def summariseSleepData (s : State) : String :=
  "SLEEP: duration=" ++ toString s.AcCount ++ ", activity=" ++ toString s.AcTotal

/-- processSleepButton of src/unnamed/part_000: guarded by mode being MODE_NONE or
MODE_SLEEP; on a detected press from idle it zeroes the three accumulator globals and
turns the sleep LED on; on a press while sleeping it returns to idle, turns the sleep
LED off, zeroes the activity LED, and logs the disable notice followed by the summary. -/
def processSleepButton (s : State) (level : Int) : State × List Ev :=
  if s.mode = MODE_NONE ∨ s.mode = MODE_SLEEP then
    let sleepState := level
    if s.prevSleepState = LOW ∧ sleepState = HIGH then
      if s.mode = MODE_NONE then
        ({ s with mode := MODE_SLEEP, AcStep := 0, AcCount := 0, AcTotal := 0, ledSleep := HIGH },
          [Ev.setMode MODE_SLEEP, Ev.setAcStep 0, Ev.setAcCount 0, Ev.setAcTotal 0,
           Ev.ledSleepWrite HIGH,
           logData "LOG: Sleep button was pressed, sleep mode enabled", Ev.delayMs REST])
      else if s.mode = MODE_SLEEP then
        ({ s with mode := MODE_NONE, ledSleep := LOW, ledActive := 0 },
          [Ev.setMode MODE_NONE, Ev.ledSleepWrite LOW, Ev.ledActiveWrite 0,
           logData "LOG: Sleep button was pressed, sleep mode disabled",
           logData (summariseSleepData s), Ev.delayMs REST])
      else (s, [Ev.delayMs REST])
    else (s, [])
  else (s, [])

/-- Two's-complement interpretation of a 16-bit word: the value of the int16_t built by
Wire.read() << 8 | Wire.read(). -/
def toInt16 (n : Int) : Int :=
  (n + 32768) % 65536 - 32768

/-- The absolute-value idiom of the source: if (v < 0) v = v * -1. -/
def absOf (v : Int) : Int :=
  if v < 0 then v * -1 else v

/-- The per-sample step of processSleepData as a function of the raw X and Y sensor
words: divide each int16 value by 100 (C truncating division), take the absolute value
of each, and average the two (truncating division by 2). -/
def stepOf (x y : Int) : Int :=
  (absOf ((toInt16 x).tdiv 100) + absOf ((toInt16 y).tdiv 100)).tdiv 2

/-- Two's-complement interpretation of a 32-bit value: the result of a store to the
AVR 32-bit `long` AcTotal. -/
def toInt32 (n : Int) : Int :=
  (n + 2147483648) % 4294967296 - 2147483648

/-- processSleepData of src/unnamed/part_000: reads the seven sensor words (only X and Y
are used), normalises X and Y, increments AcCount, computes AcStep, adds it to AcTotal,
drives the activity LED with AcStep, and delays.  There is no mode guard.  AcCount is a
16-bit `int` on the AVR target and AcTotal a 32-bit `long`, so the stores `AcCount+=1`
and `AcTotal+=AcStep` wrap; the AcStep store `(AcX+AcY)/2` always lies in [0, 327] and
can never wrap, so no reduction is applied there. -/
def processSleepData (s : State) (i : Input) : State × List Ev :=
  let AcX := toInt16 i.acX
  let AcY := toInt16 i.acY
  let AcX := AcX.tdiv 100
  let AcY := AcY.tdiv 100
  let AcX := absOf AcX
  let AcY := absOf AcY
  let AcCount := toInt16 (s.AcCount + 1)
  let AcStep := (AcX + AcY).tdiv 2
  let AcTotal := toInt32 (s.AcTotal + AcStep)
  ({ s with AcStep := AcStep, AcCount := AcCount, AcTotal := AcTotal, ledActive := AcStep },
    [Ev.setAcCount AcCount, Ev.setAcStep AcStep, Ev.setAcTotal AcTotal,
     Ev.ledActiveWrite AcStep, Ev.delayMs REST])

/-- sendData of src/unnamed/part_000 (USE_SD = false variant): a log note, then the
session summary wrapped in a cmd envelope, all on the console. -/
def sendData (s : State) : List Ev :=
  [Ev.serialLine "<log message=\x27Sending sleep data\x27/>",
   Ev.serialLine "<cmd name=\x27data\x27>",
   Ev.serialLine (summariseSleepData s),
   Ev.serialLine "</cmd>"]

/-- resetDevice of src/unnamed/part_000: the active definition is a stub with an empty
body (the SD-backed one is commented out in that file). -/
def resetDevice : List Ev := []

/-- idle of src/unnamed/part_000: poll both buttons. -/
def idle (s : State) (i : Input) : State × List Ev :=
  let r1 := processSyncButton s i.syncLevel
  let r2 := processSleepButton r1.1 i.sleepLevel
  (r2.1, r1.2 ++ r2.2)

/-- sync of src/unnamed/part_000: poll the sync button, then, if a serial byte is
pending, dispatch on it — 68 is the character D (dump data), 82 is R (reset device);
any other byte falls through the switch with no effect. -/
def sync (s : State) (i : Input) : State × List Ev :=
  let r1 := processSyncButton s i.syncLevel
  match i.serialByte with
  | some c =>
      if c = 68 then
        (r1.1, r1.2 ++ (Ev.serialLine "<log message=\x27Received: Read data\x27>"
          :: sendData r1.1))
      else if c = 82 then
        (r1.1, r1.2 ++ (Ev.serialLine "<log message=\x27Received: Reset device\x27>"
          :: resetDevice))
      else r1
  | none => r1

/-- sleep of src/unnamed/part_000: poll the sleep button, then take a sensor sample.
processSleepData is invoked unconditionally, even when the button press just left
sleep mode. -/
def sleep (s : State) (i : Input) : State × List Ev :=
  let r1 := processSleepButton s i.sleepLevel
  let r2 := processSleepData r1.1 i
  (r2.1, r1.2 ++ r2.2)

/-- loop of src/unnamed/part_000: three-way dispatch on the mode variable. -/
def loop (s : State) (i : Input) : State × List Ev :=
  if s.mode = MODE_NONE then idle s i
  else if s.mode = MODE_SYNC then sync s i
  else if s.mode = MODE_SLEEP then sleep s i
  else (s, [])

/-- Iterated loop: the state after a sequence of polled inputs. -/
def runState (s : State) (inputs : List Input) : State :=
  inputs.foldl (fun t i => (loop t i).1) s

/-- Iterated processSleepData: the state after a sequence of sensor samples. -/
def runSamples (s : State) (inputs : List Input) : State :=
  inputs.foldl (fun t i => (processSleepData t i).1) s

/-- resetDevice of src/pet-health/pet-health.ino: logs the reset note, then attempts
SD.remove(LOG_FILE); the outcome of the removal is the external collaborator's and is
supplied as the parameter removeOk; on failure an error line is printed. -/
def inoResetDevice (removeOk : Bool) : List String :=
  "<log message=\x27Reset SD card data\x27/>" ::
    (if removeOk then [] else ["<log message=\x27Error deleting LOG.TXT...\x27/>"])

/-- The byte-82 (character R) case of sync() in src/pet-health/pet-health.ino: the
received-command note, then resetDevice. -/
def inoHandleResetCommand (removeOk : Bool) : List String :=
  "<log message=\x27Received: Reset device\x27>" :: inoResetDevice removeOk

/-- Every value of toInt16 is at least the int16 minimum. -/
lemma toInt16_lb (n : Int) : -32768 ≤ toInt16 n := by
  unfold toInt16
  omega

/-- Every value of toInt16 is at most the int16 maximum. -/
lemma toInt16_ub (n : Int) : toInt16 n ≤ 32767 := by
  unfold toInt16
  omega

/-- Dividing an int16 value by 100 and taking the absolute value lands in [0, 327];
the minimum value -32768 is divided before negation, so no overflow occurs. -/
lemma absOf_tdiv_bounds (a : Int) (h1 : -32768 ≤ a) (h2 : a ≤ 32767) :
    0 ≤ absOf (a.tdiv 100) ∧ absOf (a.tdiv 100) ≤ 327 := by
  have h : (a.tdiv 100).natAbs = a.natAbs / 100 := Int.natAbs_tdiv a 100
  have h3 : a.natAbs ≤ 32768 := by omega
  unfold absOf
  split <;> omega

/-- The per-sample step is always in [0, 327]. -/
lemma stepOf_bounds (x y : Int) : 0 ≤ stepOf x y ∧ stepOf x y ≤ 327 := by
  obtain ⟨hx0, hx1⟩ := absOf_tdiv_bounds (toInt16 x) (toInt16_lb x) (toInt16_ub x)
  obtain ⟨hy0, hy1⟩ := absOf_tdiv_bounds (toInt16 y) (toInt16_lb y) (toInt16_ub y)
  unfold stepOf
  rw [Int.tdiv_eq_ediv (by omega) (by norm_num)]
  omega

/-- The state component of processSleepData in closed form. -/
lemma processSleepData_fst (s : State) (i : Input) :
    (processSleepData s i).1 =
      { s with AcStep := stepOf i.acX i.acY, AcCount := toInt16 (s.AcCount + 1), AcTotal := toInt32 (s.AcTotal + stepOf i.acX i.acY), ledActive := stepOf i.acX i.acY } :=
  rfl

/-- processSleepData increments the sample count by one, through the 16-bit store. -/
lemma processSleepData_AcCount (s : State) (i : Input) :
    (processSleepData s i).1.AcCount = toInt16 (s.AcCount + 1) :=
  rfl

/-- processSleepData adds the per-sample step to the running total, through the
32-bit store. -/
lemma processSleepData_AcTotal (s : State) (i : Input) :
    (processSleepData s i).1.AcTotal = toInt32 (s.AcTotal + stepOf i.acX i.acY) :=
  rfl

/-- The trace of processSleepData in closed form. -/
lemma processSleepData_snd (s : State) (i : Input) :
    (processSleepData s i).2 =
      [Ev.setAcCount (toInt16 (s.AcCount + 1)), Ev.setAcStep (stepOf i.acX i.acY),
       Ev.setAcTotal (toInt32 (s.AcTotal + stepOf i.acX i.acY)),
       Ev.ledActiveWrite (stepOf i.acX i.acY), Ev.delayMs REST] :=
  rfl

/-- processSleepData never changes the mode variable. -/
lemma processSleepData_mode (s : State) (i : Input) :
    (processSleepData s i).1.mode = s.mode :=
  rfl

/-- processSyncButton leaves the mode variable alone or moves it to sync or idle. -/
lemma processSyncButton_mode (s : State) (level : Int) :
    (processSyncButton s level).1.mode = s.mode ∨
    (processSyncButton s level).1.mode = MODE_SYNC ∨
    (processSyncButton s level).1.mode = MODE_NONE := by
  unfold processSyncButton
  by_cases h1 : s.mode = MODE_NONE ∨ s.mode = MODE_SYNC
  · by_cases h2 : s.prevSyncState = LOW ∧ level = HIGH
    · by_cases h3 : s.mode = MODE_NONE
      · rw [if_pos h1, if_pos h2, if_pos h3]; simp
      · by_cases h4 : s.mode = MODE_SYNC
        · rw [if_pos h1, if_pos h2, if_neg h3, if_pos h4]; simp
        · rw [if_pos h1, if_pos h2, if_neg h3, if_neg h4]; simp
    · rw [if_pos h1, if_neg h2]; simp
  · rw [if_neg h1]; simp

/-- processSleepButton leaves the mode variable alone or moves it to sleep or idle. -/
lemma processSleepButton_mode (s : State) (level : Int) :
    (processSleepButton s level).1.mode = s.mode ∨
    (processSleepButton s level).1.mode = MODE_SLEEP ∨
    (processSleepButton s level).1.mode = MODE_NONE := by
  unfold processSleepButton
  by_cases h1 : s.mode = MODE_NONE ∨ s.mode = MODE_SLEEP
  · by_cases h2 : s.prevSleepState = LOW ∧ level = HIGH
    · by_cases h3 : s.mode = MODE_NONE
      · rw [if_pos h1, if_pos h2, if_pos h3]; simp
      · by_cases h4 : s.mode = MODE_SLEEP
        · rw [if_pos h1, if_pos h2, if_neg h3, if_pos h4]; simp
        · rw [if_pos h1, if_pos h2, if_neg h3, if_neg h4]; simp
    · rw [if_pos h1, if_neg h2]; simp
  · rw [if_neg h1]; simp

/-- The state component of sync is the state component of the button poll. -/
lemma sync_fst (s : State) (i : Input) :
    (sync s i).1 = (processSyncButton s i.syncLevel).1 := by
  unfold sync
  cases i.serialByte with
  | none => rfl
  | some c => simp only []; split_ifs <;> rfl

/-- One loop iteration keeps the mode variable inside {MODE_NONE, MODE_SYNC, MODE_SLEEP}. -/
lemma loop_mode_ok (s : State) (i : Input)
    (h : s.mode = MODE_NONE ∨ s.mode = MODE_SYNC ∨ s.mode = MODE_SLEEP) :
    (loop s i).1.mode = MODE_NONE ∨ (loop s i).1.mode = MODE_SYNC ∨
    (loop s i).1.mode = MODE_SLEEP := by
  unfold loop
  split_ifs with h1 h2 h3
  · unfold idle
    rcases processSleepButton_mode (processSyncButton s i.syncLevel).1 i.sleepLevel with
      hb | hb | hb
    · rw [hb]
      rcases processSyncButton_mode s i.syncLevel with ha | ha | ha
      · rw [ha, h1]; tauto
      · tauto
      · tauto
    · tauto
    · tauto
  · rw [sync_fst]
    rcases processSyncButton_mode s i.syncLevel with ha | ha | ha
    · rw [ha, h2]; tauto
    · tauto
    · tauto
  · unfold sleep
    rw [processSleepData_mode]
    rcases processSleepButton_mode s i.sleepLevel with hb | hb | hb
    · rw [hb, h3]; tauto
    · tauto
    · tauto
  · tauto

/-- The mode variable stays inside {MODE_NONE, MODE_SYNC, MODE_SLEEP} along any run. -/
lemma runState_mode_ok (inputs : List Input) :
    ∀ s : State, (s.mode = MODE_NONE ∨ s.mode = MODE_SYNC ∨ s.mode = MODE_SLEEP) →
      ((runState s inputs).mode = MODE_NONE ∨ (runState s inputs).mode = MODE_SYNC ∨
        (runState s inputs).mode = MODE_SLEEP) := by
  induction inputs with
  | nil => intro s h; exact h
  | cons i is ih =>
      intro s h
      exact ih (loop s i).1 (loop_mode_ok s i h)

/-- runSamples unfolded one step. -/
lemma runSamples_cons (s : State) (i : Input) (is : List Input) :
    runSamples s (i :: is) = runSamples (processSleepData s i).1 is :=
  rfl

/-- toInt16 is the identity exactly on the int16 range. -/
lemma toInt16_eq_self (n : Int) (h1 : -32768 ≤ n) (h2 : n ≤ 32767) : toInt16 n = n := by
  unfold toInt16
  omega

/-- toInt32 is the identity exactly on the int32 range. -/
lemma toInt32_eq_self (n : Int) (h1 : -2147483648 ≤ n) (h2 : n ≤ 2147483647) :
    toInt32 n = n := by
  unfold toInt32
  omega

/-- toInt16 only depends on the argument modulo 2^16. -/
lemma toInt16_add_cong (a b : Int) : toInt16 (toInt16 a + b) = toInt16 (a + b) := by
  unfold toInt16
  omega

/-- After at least one sample, the 16-bit sample counter holds the wrapped value of
the start count plus the number of samples. -/
lemma runSamples_AcCount_wrap (is : List Input) :
    ∀ s : State, is ≠ [] →
      (runSamples s is).AcCount = toInt16 (s.AcCount + is.length) := by
  induction is with
  | nil => intro s h; exact absurd rfl h
  | cons i is ih =>
      intro s _
      rw [runSamples_cons]
      by_cases h : is = []
      · subst h
        rw [show runSamples (processSleepData s i).1 [] = (processSleepData s i).1 from rfl]
        rw [processSleepData_AcCount]
        norm_num
      · rw [ih (processSleepData s i).1 h, processSleepData_AcCount, toInt16_add_cong]
        congr 1
        simp [List.length_cons]
        ring

/-- The accumulator after a run of samples that stays inside the machine ranges:
the count grows by the number of samples and the total by the sum of the per-sample
steps.  The bounds keep both the 16-bit count store and the 32-bit total store from
wrapping (each step is at most 327). -/
lemma runSamples_acc_bounded (is : List Input) :
    ∀ s : State, 0 ≤ s.AcCount → s.AcCount + is.length ≤ 32767 →
      0 ≤ s.AcTotal → s.AcTotal + 327 * is.length ≤ 2147483647 →
      (runSamples s is).AcCount = s.AcCount + is.length ∧
      (runSamples s is).AcTotal = s.AcTotal + (is.map (fun i => stepOf i.acX i.acY)).sum := by
  induction is with
  | nil => intro s _ _ _ _; simp [runSamples]
  | cons i is ih =>
      intro s hc0 hc1 ht0 ht1
      rw [runSamples_cons]
      rw [List.length_cons] at hc1 ht1
      push_cast at hc1 ht1
      have hstep := stepOf_bounds i.acX i.acY
      have hlen : (0 : Int) ≤ is.length := by positivity
      have hcnt : (processSleepData s i).1.AcCount = s.AcCount + 1 := by
        rw [processSleepData_AcCount]
        exact toInt16_eq_self (s.AcCount + 1) (by omega) (by omega)
      have htot : (processSleepData s i).1.AcTotal = s.AcTotal + stepOf i.acX i.acY := by
        rw [processSleepData_AcTotal]
        exact toInt32_eq_self (s.AcTotal + stepOf i.acX i.acY) (by omega) (by omega)
      obtain ⟨g1, g2⟩ := ih (processSleepData s i).1
        (by rw [hcnt]; omega) (by rw [hcnt]; omega)
        (by rw [htot]; omega) (by rw [htot]; omega)
      rw [hcnt] at g1
      rw [htot] at g2
      constructor
      · rw [g1]; simp [List.length_cons]; omega
      · rw [g2]; simp [List.map_cons, List.sum_cons]; omega

/-- The sum of the steps of a prefix of samples is at most the sum over all of them. -/
lemma sum_steps_take_le (is : List Input) (n : Nat) :
    ((is.take n).map (fun i => stepOf i.acX i.acY)).sum ≤
      (is.map (fun i => stepOf i.acX i.acY)).sum := by
  conv_rhs => rw [← List.take_append_drop n is]
  rw [List.map_append, List.sum_append]
  have h : 0 ≤ ((is.drop n).map (fun i => stepOf i.acX i.acY)).sum := by
    apply List.sum_nonneg
    intro x hx
    simp only [List.mem_map] at hx
    obtain ⟨j, hj, rfl⟩ := hx
    exact (stepOf_bounds j.acX j.acY).1
  omega

/-- processSyncButton never writes the stored sync button level. -/
lemma processSyncButton_prev (s : State) (level : Int) :
    (processSyncButton s level).1.prevSyncState = s.prevSyncState := by
  unfold processSyncButton
  by_cases h1 : s.mode = MODE_NONE ∨ s.mode = MODE_SYNC
  · by_cases h2 : s.prevSyncState = LOW ∧ level = HIGH
    · by_cases h3 : s.mode = MODE_NONE
      · rw [if_pos h1, if_pos h2, if_pos h3]
      · by_cases h4 : s.mode = MODE_SYNC
        · rw [if_pos h1, if_pos h2, if_neg h3, if_pos h4]
        · rw [if_pos h1, if_pos h2, if_neg h3, if_neg h4]
    · rw [if_pos h1, if_neg h2]
  · rw [if_neg h1]

/-- processSleepButton never writes the stored sleep button level. -/
lemma processSleepButton_prev (s : State) (level : Int) :
    (processSleepButton s level).1.prevSleepState = s.prevSleepState := by
  unfold processSleepButton
  by_cases h1 : s.mode = MODE_NONE ∨ s.mode = MODE_SLEEP
  · by_cases h2 : s.prevSleepState = LOW ∧ level = HIGH
    · by_cases h3 : s.mode = MODE_NONE
      · rw [if_pos h1, if_pos h2, if_pos h3]
      · by_cases h4 : s.mode = MODE_SLEEP
        · rw [if_pos h1, if_pos h2, if_neg h3, if_pos h4]
        · rw [if_pos h1, if_pos h2, if_neg h3, if_neg h4]
    · rw [if_pos h1, if_neg h2]
  · rw [if_neg h1]

/-- processSyncButton never touches the accumulator globals. -/
lemma processSyncButton_acc (s : State) (level : Int) :
    (processSyncButton s level).1.AcStep = s.AcStep ∧
    (processSyncButton s level).1.AcCount = s.AcCount ∧
    (processSyncButton s level).1.AcTotal = s.AcTotal := by
  unfold processSyncButton
  by_cases h1 : s.mode = MODE_NONE ∨ s.mode = MODE_SYNC
  · by_cases h2 : s.prevSyncState = LOW ∧ level = HIGH
    · by_cases h3 : s.mode = MODE_NONE
      · rw [if_pos h1, if_pos h2, if_pos h3]; exact ⟨rfl, rfl, rfl⟩
      · by_cases h4 : s.mode = MODE_SYNC
        · rw [if_pos h1, if_pos h2, if_neg h3, if_pos h4]; exact ⟨rfl, rfl, rfl⟩
        · rw [if_pos h1, if_pos h2, if_neg h3, if_neg h4]; exact ⟨rfl, rfl, rfl⟩
    · rw [if_pos h1, if_neg h2]; exact ⟨rfl, rfl, rfl⟩
  · rw [if_neg h1]; exact ⟨rfl, rfl, rfl⟩

/-- A sync poll with the button reading LOW is a no-op: no state change, no output. -/
lemma processSyncButton_low (s : State) (level : Int) (hl : level = LOW) :
    processSyncButton s level = (s, []) := by
  have h2 : ¬(s.prevSyncState = LOW ∧ level = HIGH) := by
    rw [hl]; simp [LOW, HIGH]
  unfold processSyncButton
  by_cases h1 : s.mode = MODE_NONE ∨ s.mode = MODE_SYNC
  · rw [if_pos h1, if_neg h2]
  · rw [if_neg h1]

/-- A sleep poll with the button reading LOW is a no-op: no state change, no output. -/
lemma processSleepButton_low (s : State) (level : Int) (hl : level = LOW) :
    processSleepButton s level = (s, []) := by
  have h2 : ¬(s.prevSleepState = LOW ∧ level = HIGH) := by
    rw [hl]; simp [LOW, HIGH]
  unfold processSleepButton
  by_cases h1 : s.mode = MODE_NONE ∨ s.mode = MODE_SLEEP
  · rw [if_pos h1, if_neg h2]
  · rw [if_neg h1]

/-- While sleep mode is active the sync button handler is a complete no-op. -/
lemma processSyncButton_in_sleep (s : State) (level : Int) (h : s.mode = MODE_SLEEP) :
    processSyncButton s level = (s, []) := by
  have h1 : ¬(s.mode = MODE_NONE ∨ s.mode = MODE_SYNC) := by
    rw [h]; simp [ MODE_NONE, MODE_SYNC, MODE_SLEEP]
  unfold processSyncButton
  rw [if_neg h1]

/-- While sync mode is active the sleep button handler is a complete no-op. -/
lemma processSleepButton_in_sync (s : State) (level : Int) (h : s.mode = MODE_SYNC) :
    processSleepButton s level = (s, []) := by
  have h1 : ¬(s.mode = MODE_NONE ∨ s.mode = MODE_SLEEP) := by
    rw [h]; simp [ MODE_NONE, MODE_SYNC, MODE_SLEEP]
  unfold processSleepButton
  rw [if_neg h1]

/-- Dispatch: in idle mode the loop body is idle. -/
lemma loop_idle (s : State) (i : Input) (h : s.mode = MODE_NONE) :
    loop s i = idle s i := by
  unfold loop
  rw [if_pos h]

/-- Dispatch: in sync mode the loop body is sync. -/
lemma loop_sync (s : State) (i : Input) (h : s.mode = MODE_SYNC) :
    loop s i = sync s i := by
  have h0 : ¬ s.mode = MODE_NONE := by rw [h]; simp [ MODE_NONE, MODE_SYNC]
  unfold loop
  rw [if_neg h0, if_pos h]

/-- Dispatch: in sleep mode the loop body is sleep. -/
lemma loop_sleep (s : State) (i : Input) (h : s.mode = MODE_SLEEP) :
    loop s i = sleep s i := by
  have h0 : ¬ s.mode = MODE_NONE := by rw [h]; simp [ MODE_NONE, MODE_SLEEP]
  have h1 : ¬ s.mode = MODE_SYNC := by rw [h]; simp [ MODE_SYNC, MODE_SLEEP]
  unfold loop
  rw [if_neg h0, if_neg h1, if_pos h]

/-- Handling of a pending D byte (68) in sync when the sync button reads LOW. -/
lemma sync_byteD (s : State) (i : Input) (hl : i.syncLevel = LOW)
    (hb : i.serialByte = some 68) :
    sync s i =
      (s, [Ev.serialLine "<log message=\x27Received: Read data\x27>",
           Ev.serialLine "<log message=\x27Sending sleep data\x27/>",
           Ev.serialLine "<cmd name=\x27data\x27>",
           Ev.serialLine (summariseSleepData s),
           Ev.serialLine "</cmd>"]) := by
  unfold sync
  rw [processSyncButton_low s i.syncLevel hl, hb]
  rfl

/-- Handling of a pending R byte (82) in sync when the sync button reads LOW. -/
lemma sync_byteR (s : State) (i : Input) (hl : i.syncLevel = LOW)
    (hb : i.serialByte = some 82) :
    sync s i = (s, [Ev.serialLine "<log message=\x27Received: Reset device\x27>"]) := by
  unfold sync
  rw [processSyncButton_low s i.syncLevel hl, hb]
  rfl

/-- Handling of any other pending byte in sync when the sync button reads LOW. -/
lemma sync_byteOther (s : State) (i : Input) (b : Int) (hl : i.syncLevel = LOW)
    (hb : i.serialByte = some b) (h68 : b ≠ 68) (h82 : b ≠ 82) :
    sync s i = (s, []) := by
  unfold sync
  rw [processSyncButton_low s i.syncLevel hl, hb]
  simp only []
  rw [if_neg h68, if_neg h82]

/-- C1: Along every run from the initial state the mode variable takes exactly one of
the values MODE_NONE, MODE_SYNC, MODE_SLEEP — in particular it never represents sync
and sleep simultaneously — and a rising sync-button edge while sleeping (symmetrically,
a rising sleep-button edge while syncing) changes no state and emits no log line. -/
theorem C1_mode_mutual_exclusion :
    (∀ inputs : List Input,
      ((runState initState inputs).mode = MODE_NONE ∨
       (runState initState inputs).mode = MODE_SYNC ∨
       (runState initState inputs).mode = MODE_SLEEP) ∧
      ¬((runState initState inputs).mode = MODE_SYNC ∧
        (runState initState inputs).mode = MODE_SLEEP)) ∧
    (∀ (s : State) (level : Int), s.mode = MODE_SLEEP →
      processSyncButton s level = (s, [])) ∧
    (∀ (s : State) (level : Int), s.mode = MODE_SYNC →
      processSleepButton s level = (s, [])) := by
  refine ⟨fun inputs => ⟨?_, ?_⟩, processSyncButton_in_sleep, processSleepButton_in_sync⟩
  · exact runState_mode_ok inputs initState (Or.inl rfl)
  · intro ⟨ha, hb⟩
    rw [ha] at hb
    simp [ MODE_SYNC, MODE_SLEEP] at hb

/-- C1 witness: in a concrete sleep-mode state a HIGH sync reading is a no-op. -/
theorem C1_mode_mutual_exclusion_witness :
    processSyncButton { initState with mode := MODE_SLEEP } HIGH =
      ({ initState with mode := MODE_SLEEP }, []) :=
  C1_mode_mutual_exclusion.2.1 { initState with mode := MODE_SLEEP } HIGH rfl

/-- C2 evaluation: the claim asserts that after each poll the stored level equals the
just-read level; in the code neither prevSyncState nor prevSleepState is ever assigned
after its LOW initialiser, so after polling a HIGH level the stored level is still LOW. -/
theorem C2_prev_level_never_updated :
    (∀ (s : State) (level : Int),
      (processSyncButton s level).1.prevSyncState = s.prevSyncState) ∧
    (∀ (s : State) (level : Int),
      (processSleepButton s level).1.prevSleepState = s.prevSleepState) ∧
    (processSyncButton initState HIGH).1.prevSyncState = LOW ∧
    (processSleepButton initState HIGH).1.prevSleepState = LOW ∧
    LOW ≠ HIGH := by
  refine ⟨processSyncButton_prev, processSleepButton_prev, by decide, by decide, by decide⟩

/-- The sum of per-sample steps over any sample list is non-negative. -/
lemma sum_steps_nonneg (is : List Input) :
    0 ≤ (is.map (fun i => stepOf i.acX i.acY)).sum := by
  apply List.sum_nonneg
  intro x hx
  simp only [List.mem_map] at hx
  obtain ⟨j, hj, rfl⟩ := hx
  exact (stepOf_bounds j.acX j.acY).1

/-- The session-entering branch of processSleepButton in closed form. -/
lemma processSleepButton_enter (s : State) (level : Int) (h0 : s.mode = MODE_NONE)
    (hp : s.prevSleepState = LOW) (hl : level = HIGH) :
    processSleepButton s level =
      ({ s with mode := MODE_SLEEP, AcStep := 0, AcCount := 0, AcTotal := 0, ledSleep := HIGH },
       [Ev.setMode MODE_SLEEP, Ev.setAcStep 0, Ev.setAcCount 0, Ev.setAcTotal 0,
        Ev.ledSleepWrite HIGH,
        logData "LOG: Sleep button was pressed, sleep mode enabled", Ev.delayMs REST]) := by
  have h1 : s.mode = MODE_NONE ∨ s.mode = MODE_SLEEP := Or.inl h0
  have h2 : s.prevSleepState = LOW ∧ level = HIGH := ⟨hp, hl⟩
  unfold processSleepButton
  rw [if_pos h1, if_pos h2, if_pos h0]

/-- The session-leaving branch of processSleepButton in closed form. -/
lemma processSleepButton_exit (s : State) (level : Int) (h : s.mode = MODE_SLEEP)
    (hp : s.prevSleepState = LOW) (hl : level = HIGH) :
    processSleepButton s level =
      ({ s with mode := MODE_NONE, ledSleep := LOW, ledActive := 0 },
       [Ev.setMode MODE_NONE, Ev.ledSleepWrite LOW, Ev.ledActiveWrite 0,
        logData "LOG: Sleep button was pressed, sleep mode disabled",
        logData (summariseSleepData s), Ev.delayMs REST]) := by
  have h1 : s.mode = MODE_NONE ∨ s.mode = MODE_SLEEP := Or.inr h
  have h2 : s.prevSleepState = LOW ∧ level = HIGH := ⟨hp, hl⟩
  have h3 : ¬ s.mode = MODE_NONE := by rw [h]; simp [ MODE_NONE, MODE_SLEEP]
  unfold processSleepButton
  rw [if_pos h1, if_pos h2, if_neg h3, if_pos h]

/-- C3 counterexample: the 16-bit sample counter wraps.  Starting a session in sleep
mode with a zeroed accumulator, 32768 samples (about 4.5 hours at the 500 ms throttle)
leave AcCount = -32768: negative, decreasing at the last step, and not equal to the
number of samples, so the unbounded form of the claim is false of the program. -/
theorem C3_counterexample :
    (runSamples { initState with mode := MODE_SLEEP }
        (List.replicate 32768 (mkInput 0 0 none 0 0))).AcCount = -32768 ∧
    (List.replicate 32768 (mkInput 0 0 none 0 0)).length = 32768 ∧
    (runSamples { initState with mode := MODE_SLEEP }
        (List.replicate 32768 (mkInput 0 0 none 0 0))).AcCount ≠
      ((List.replicate 32768 (mkInput 0 0 none 0 0)).length : Int) ∧
    (runSamples { initState with mode := MODE_SLEEP }
        (List.replicate 32768 (mkInput 0 0 none 0 0))).AcCount < 0 := by
  have hlen : (List.replicate 32768 (mkInput 0 0 none 0 0)).length = 32768 :=
    List.length_replicate 32768 (mkInput 0 0 none 0 0)
  have hne : List.replicate 32768 (mkInput 0 0 none 0 0) ≠ [] := by
    intro hcon
    rw [hcon] at hlen
    exact absurd hlen (by decide)
  have h := runSamples_AcCount_wrap (List.replicate 32768 (mkInput 0 0 none 0 0))
    { initState with mode := MODE_SLEEP } hne
  rw [hlen] at h
  have hval : toInt16 (({ initState with mode := MODE_SLEEP } : State).AcCount +
      ((32768 : Nat) : Int)) = -32768 := by decide
  rw [hval] at h
  refine ⟨h, hlen, ?_, ?_⟩
  · rw [h, hlen]
    decide
  · rw [h]
    decide

/-- C3 (amended): Starting from a freshly reset session, N accepted samples with
N < 32768 (so that the 16-bit sample counter does not wrap; the 32-bit total then
cannot wrap either, since each step is at most 327) leave the sample count at N and
the activity total at the sum of the per-sample steps; both are non-negative and
non-decreasing along the session.  Concretely, the sensor pairs (200,100), (300,100),
(100,100) give steps 1, 2, 1, and the scenario idle → sleep press → those three samples
ends with the summary "SLEEP: duration=3, activity=4". -/
theorem C3_accumulator_correct_bounded :
    (∀ (s : State) (samples : List Input), s.AcCount = 0 → s.AcTotal = 0 →
      samples.length < 32768 →
      (runSamples s samples).AcCount = samples.length ∧
      (runSamples s samples).AcTotal = (samples.map (fun i => stepOf i.acX i.acY)).sum ∧
      0 ≤ (runSamples s samples).AcCount ∧
      0 ≤ (runSamples s samples).AcTotal ∧
      (∀ n : Nat,
        (runSamples s (samples.take n)).AcCount ≤ (runSamples s samples).AcCount ∧
        (runSamples s (samples.take n)).AcTotal ≤ (runSamples s samples).AcTotal)) ∧
    [stepOf 200 100, stepOf 300 100, stepOf 100 100] = [1, 2, 1] ∧
    summariseSleepData (runState initState
      [mkInput 0 1 none 0 0, mkInput 0 0 none 200 100,
       mkInput 0 0 none 300 100, mkInput 0 0 none 100 100]) =
      "SLEEP: duration=3, activity=4" := by
  refine ⟨?_, by decide, by decide⟩
  intro s samples hc ht hN
  obtain ⟨h1, h2⟩ := runSamples_acc_bounded samples s
    (by omega) (by omega) (by omega) (by omega)
  refine ⟨?_, ?_, ?_, ?_, ?_⟩
  · rw [h1, hc, zero_add]
  · rw [h2, ht, zero_add]
  · rw [h1, hc, zero_add]; omega
  · rw [h2, ht, zero_add]; exact sum_steps_nonneg samples
  · intro n
    have htk : (samples.take n).length ≤ samples.length := by
      rw [List.length_take]; omega
    obtain ⟨g1, g2⟩ := runSamples_acc_bounded (samples.take n) s
      (by omega) (by omega) (by omega) (by omega)
    have hsum := sum_steps_take_le samples n
    constructor
    · rw [g1, h1, hc]; omega
    · rw [g2, h2, ht]; omega

/-- C3 witness: one concrete sample from the initial state gives count 1. -/
theorem C3_accumulator_correct_bounded_witness :
    (runSamples initState [mkInput 0 0 none 200 100]).AcCount =
      [mkInput 0 0 none 200 100].length :=
  (C3_accumulator_correct_bounded.1 initState [mkInput 0 0 none 200 100]
    rfl rfl (by decide)).1

/-- C4: An accepted sleep-button press while sleeping performs, in source order:
mode := MODE_NONE, sleep LED off, activity output zero, the disable log line, then the
summary log line — exactly two log lines, then only the debounce delay. -/
theorem C4_leave_sleep_effects :
    ∀ (s : State) (level : Int), s.mode = MODE_SLEEP → s.prevSleepState = LOW →
      level = HIGH →
      processSleepButton s level =
        ({ s with mode := MODE_NONE, ledSleep := LOW, ledActive := 0 },
         [Ev.setMode MODE_NONE, Ev.ledSleepWrite LOW, Ev.ledActiveWrite 0,
          logData "LOG: Sleep button was pressed, sleep mode disabled",
          logData (summariseSleepData s), Ev.delayMs REST]) := by
  intro s level h hp hl
  exact processSleepButton_exit s level h hp hl

/-- C4 witness: the effect list at a concrete sleeping state. -/
theorem C4_leave_sleep_effects_witness :
    processSleepButton { initState with mode := MODE_SLEEP } HIGH =
      ({ initState with mode := MODE_NONE, ledSleep := LOW, ledActive := 0 },
       [Ev.setMode MODE_NONE, Ev.ledSleepWrite LOW, Ev.ledActiveWrite 0,
        logData "LOG: Sleep button was pressed, sleep mode disabled",
        logData (summariseSleepData { initState with mode := MODE_SLEEP }),
        Ev.delayMs REST]) :=
  C4_leave_sleep_effects { initState with mode := MODE_SLEEP } HIGH rfl rfl rfl

/-- C5: An accepted sleep-button press while idle zeroes AcStep, AcCount and AcTotal
before the sleep LED is turned on (the zeroing events precede the LED event in the
effect list), and the loop iteration that enters sleep mode takes no sample, so the
accumulator is still zero before the first sample of the new session. -/
theorem C5_enter_sleep_resets_accumulator :
    (∀ (s : State) (level : Int), s.mode = MODE_NONE → s.prevSleepState = LOW →
      level = HIGH →
      processSleepButton s level =
        ({ s with mode := MODE_SLEEP, AcStep := 0, AcCount := 0, AcTotal := 0, ledSleep := HIGH },
         [Ev.setMode MODE_SLEEP, Ev.setAcStep 0, Ev.setAcCount 0, Ev.setAcTotal 0,
          Ev.ledSleepWrite HIGH,
          logData "LOG: Sleep button was pressed, sleep mode enabled", Ev.delayMs REST])) ∧
    (∀ (s : State) (i : Input), s.mode = MODE_NONE → s.prevSleepState = LOW →
      i.sleepLevel = HIGH → i.syncLevel = LOW →
      (loop s i).1.AcStep = 0 ∧ (loop s i).1.AcCount = 0 ∧ (loop s i).1.AcTotal = 0 ∧
      (loop s i).1.mode = MODE_SLEEP) := by
  refine ⟨processSleepButton_enter, ?_⟩
  intro s i h0 hp hl hsync
  rw [loop_idle s i h0]
  unfold idle
  rw [processSyncButton_low s i.syncLevel hsync]
  simp only []
  rw [processSleepButton_enter s i.sleepLevel h0 hp hl]
  exact ⟨rfl, rfl, rfl, rfl⟩

/-- C5 witness: entering sleep from the initial state zeroes the accumulator. -/
theorem C5_enter_sleep_resets_accumulator_witness :
    (loop initState (mkInput 0 1 none 0 0)).1.AcStep = 0 ∧
    (loop initState (mkInput 0 1 none 0 0)).1.AcCount = 0 ∧
    (loop initState (mkInput 0 1 none 0 0)).1.AcTotal = 0 ∧
    (loop initState (mkInput 0 1 none 0 0)).1.mode = MODE_SLEEP :=
  C5_enter_sleep_resets_accumulator.2 initState (mkInput 0 1 none 0 0) rfl rfl rfl rfl

/-- C6: In sync mode with a pending D byte, the iteration emits the received-command
note, the sending note, then the summary wrapped in the cmd envelope, changes no state,
and with an empty session the summary line is exactly "SLEEP: duration=0, activity=0". -/
theorem C6_data_command_envelope :
    ∀ (s : State) (i : Input), s.mode = MODE_SYNC → i.syncLevel = LOW →
      i.serialByte = some 68 →
      (loop s i).2 =
        [Ev.serialLine "<log message=\x27Received: Read data\x27>",
         Ev.serialLine "<log message=\x27Sending sleep data\x27/>",
         Ev.serialLine "<cmd name=\x27data\x27>",
         Ev.serialLine (summariseSleepData s),
         Ev.serialLine "</cmd>"] ∧
      (loop s i).1 = s ∧
      (s.AcCount = 0 → s.AcTotal = 0 →
        summariseSleepData s = "SLEEP: duration=0, activity=0") := by
  intro s i h hl hb
  rw [loop_sync s i h, sync_byteD s i hl hb]
  refine ⟨rfl, rfl, ?_⟩
  intro hc ht
  unfold summariseSleepData
  rw [hc, ht]
  rfl

/-- C6 witness: with the concrete empty-session sync state the summary line is exact. -/
theorem C6_data_command_envelope_witness :
    summariseSleepData { initState with mode := MODE_SYNC } =
      "SLEEP: duration=0, activity=0" :=
  (C6_data_command_envelope { initState with mode := MODE_SYNC }
    (mkInput 0 0 (some 68) 0 0) rfl rfl rfl).2.2 rfl rfl

/-- C7: The R command logs the received-command note and invokes the reset collaborator.
In the SD-backed variant (pet-health.ino) resetDevice logs its note and an error line is
emitted if and only if the removal fails; in the console variant (part_000) the active
resetDevice is a stub, so the iteration emits exactly the received-command note. -/
theorem C7_reset_command :
    (∀ removeOk : Bool,
      inoHandleResetCommand removeOk =
        "<log message=\x27Received: Reset device\x27>" ::
        "<log message=\x27Reset SD card data\x27/>" ::
        (if removeOk then [] else ["<log message=\x27Error deleting LOG.TXT...\x27/>"]) ∧
      ("<log message=\x27Error deleting LOG.TXT...\x27/>" ∈ inoHandleResetCommand removeOk ↔
        removeOk = false)) ∧
    (∀ (s : State) (i : Input), s.mode = MODE_SYNC → i.syncLevel = LOW →
      i.serialByte = some 82 →
      loop s i = (s, [Ev.serialLine "<log message=\x27Received: Reset device\x27>"])) := by
  constructor
  · intro removeOk
    cases removeOk <;> exact ⟨rfl, by decide⟩
  · intro s i h hl hb
    rw [loop_sync s i h, sync_byteR s i hl hb]

/-- C7 witness: the R command at a concrete sync state of the console variant. -/
theorem C7_reset_command_witness :
    loop { initState with mode := MODE_SYNC } (mkInput 0 0 (some 82) 0 0) =
      ({ initState with mode := MODE_SYNC },
       [Ev.serialLine "<log message=\x27Received: Reset device\x27>"]) :=
  C7_reset_command.2 { initState with mode := MODE_SYNC } (mkInput 0 0 (some 82) 0 0)
    rfl rfl rfl

/-- C8: In sync mode a pending byte other than D (68) and R (82) produces no console
output, no log line and no change to any state field. -/
theorem C8_unknown_byte_ignored :
    ∀ (s : State) (i : Input) (b : Int), s.mode = MODE_SYNC → i.syncLevel = LOW →
      i.serialByte = some b → b ≠ 68 → b ≠ 82 →
      loop s i = (s, []) := by
  intro s i b h hl hb h68 h82
  rw [loop_sync s i h, sync_byteOther s i b hl hb h68 h82]

/-- C8 witness: byte 88 (the character X) in a concrete sync state is fully ignored. -/
theorem C8_unknown_byte_ignored_witness :
    loop { initState with mode := MODE_SYNC } (mkInput 0 0 (some 88) 0 0) =
      ({ initState with mode := MODE_SYNC }, []) :=
  C8_unknown_byte_ignored { initState with mode := MODE_SYNC } (mkInput 0 0 (some 88) 0 0)
    88 rfl rfl rfl (by decide) (by decide)

/-- Concrete run for C9: press sleep from idle (a zero-sample session). -/
def c9entry : Input := mkInput 0 1 none 0 0

/-- Concrete run for C9: press sleep again while sleeping; the same iteration then
samples (200, 100). -/
def c9exit : Input := mkInput 0 1 none 200 100

/-- Concrete run for C9: press sync from idle. -/
def c9syncOn : Input := mkInput 1 0 none 0 0

/-- Concrete run for C9: the D command while in sync mode. -/
def c9read : Input := mkInput 0 0 (some 68) 0 0

/-- C9 counterexample: after a zero-sample sleep session the logged session summary is
"SLEEP: duration=0, activity=0", but the later D command reports
"SLEEP: duration=1, activity=1" — not the most recent session's counts — because the
iteration that left sleep mode still ran processSleepData once. -/
theorem C9_counterexample :
    logData "SLEEP: duration=0, activity=0" ∈
      (loop (runState initState [c9entry]) c9exit).2 ∧
    Ev.serialLine "SLEEP: duration=1, activity=1" ∈
      (loop (runState initState [c9entry, c9exit, c9syncOn]) c9read).2 ∧
    Ev.serialLine "SLEEP: duration=0, activity=0" ∉
      (loop (runState initState [c9entry, c9exit, c9syncOn]) c9read).2 :=
  ⟨by decide, by decide, by decide⟩

/-- C9 (amended): the accumulator is preserved by the session-leaving branch, by
processSyncButton and by the D handler; but the loop iteration that leaves sleep mode
unconditionally runs processSleepData once more after logging the summary, so the
accumulator a later D command reports is the session's counts plus that one sample. -/
theorem C9_amended_frame_and_extra_sample :
    (∀ (s : State) (level : Int), s.mode = MODE_SLEEP →
      (processSleepButton s level).1.AcCount = s.AcCount ∧
      (processSleepButton s level).1.AcTotal = s.AcTotal) ∧
    (∀ (s : State) (level : Int),
      (processSyncButton s level).1.AcStep = s.AcStep ∧
      (processSyncButton s level).1.AcCount = s.AcCount ∧
      (processSyncButton s level).1.AcTotal = s.AcTotal) ∧
    (∀ (s : State) (i : Input), s.mode = MODE_SYNC → i.syncLevel = LOW →
      i.serialByte = some 68 → (loop s i).1 = s) ∧
    (∀ (s : State) (i : Input), s.mode = MODE_SLEEP → s.prevSleepState = LOW →
      i.sleepLevel = HIGH →
      (loop s i).1.AcCount = toInt16 (s.AcCount + 1) ∧
      (loop s i).1.AcTotal = toInt32 (s.AcTotal + stepOf i.acX i.acY) ∧
      logData (summariseSleepData s) ∈ (loop s i).2) := by
  refine ⟨?_, processSyncButton_acc, ?_, ?_⟩
  · intro s level h
    by_cases h2 : s.prevSleepState = LOW ∧ level = HIGH
    · rw [processSleepButton_exit s level h h2.1 h2.2]
      exact ⟨rfl, rfl⟩
    · unfold processSleepButton
      rw [if_pos (Or.inr h), if_neg h2]
      exact ⟨rfl, rfl⟩
  · intro s i h hl hb
    rw [loop_sync s i h, sync_byteD s i hl hb]
  · intro s i h hp hl
    rw [loop_sleep s i h]
    unfold sleep
    rw [processSleepButton_exit s i.sleepLevel h hp hl]
    exact ⟨rfl, rfl, by simp⟩

/-- C9 witness: the session-ending iteration adds one extra sample to the count. -/
theorem C9_amended_frame_and_extra_sample_witness :
    (loop { initState with mode := MODE_SLEEP } c9exit).1.AcCount =
      toInt16 (({ initState with mode := MODE_SLEEP } : State).AcCount + 1) :=
  (C9_amended_frame_and_extra_sample.2.2.2 { initState with mode := MODE_SLEEP } c9exit
    rfl rfl rfl).1

/-- C10: For every pair of raw 16-bit sensor words (including 0x8000, whose int16 value
-32768 is divided by 100 before the negation, so the absolute value never overflows) the
computed step lies in [0, 327], and hence every value written to the activity-intensity
output by processSleepData lies in [0, 327]. -/
theorem C10_step_range :
    (∀ x y : Int, 0 ≤ stepOf x y ∧ stepOf x y ≤ 327) ∧
    (∀ (s : State) (i : Input) (v : Int),
      Ev.ledActiveWrite v ∈ (processSleepData s i).2 → 0 ≤ v ∧ v ≤ 327) ∧
    stepOf 32768 32768 = 327 := by
  refine ⟨stepOf_bounds, ?_, by decide⟩
  intro s i v hv
  rw [processSleepData_snd] at hv
  simp only [List.mem_cons, List.not_mem_nil, or_false] at hv
  rcases hv with h | h | h | h | h
  · exact absurd h (by simp)
  · exact absurd h (by simp)
  · exact absurd h (by simp)
  · rw [Ev.ledActiveWrite.injEq] at h
    rw [h]
    exact stepOf_bounds i.acX i.acY
  · exact absurd h (by simp)

/-- C10 witness: the step of the concrete sample (200, 100) is within the range. -/
theorem C10_step_range_witness :
    (0 : Int) ≤ stepOf 200 100 ∧ stepOf 200 100 ≤ 327 :=
  C10_step_range.2.1 initState (mkInput 0 0 none 200 100) (stepOf 200 100) (by decide)

end PetHealth
